import Mathlib

/-!
Verification of the case-settings derivation pipeline of `CfdCaseWriterFoam.py`
(solver selection, material property resolution, boundary/initial condition
processing, porous zone resolution, and the `writeCase` orchestration).

Conventions of the shallow embedding:
* Python strings stay `String`, Python floats become `ℝ` (exact real
  arithmetic; `x ** y` becomes `Real.rpow`, and `x ** 0.5` of a non-negative
  operand becomes `Real.sqrt`).
* Unit conversion (`Units.Quantity(...).getValueAs(...)`) is an external
  collaborator; inputs are taken already in SI units, so those conversions
  embed as the identity (except the documented `* 1000` for molar mass).
* Fallible code returns `Except String α`; the string is the Python
  exception message.  A Python `dict[key]` on a possibly-missing key embeds
  as a `match` on an `Option` with a `KeyError` in the `none` case, and
  `list[0]` on a possibly-empty list likewise yields an `IndexError`.
* Real division is Lean's total division; every theorem that relies on a
  quotient carries the non-degeneracy hypotheses under which Python would
  not raise `ZeroDivisionError`.
-/

/-- The physics model record (`self.physics_model`): `Phase`, `Flow`,
`Thermal`, `Time`, `Turbulence` are enumeration strings; `TurbulenceModel`
is `none` when no turbulence model is selected (`is not None` in the
source). -/
structure PhysicsModel where
  Phase : String := ""
  Flow : String := ""
  Thermal : String := ""
  Time : String := ""
  Turbulence : String := ""
  TurbulenceModel : Option String := none

/-- `CfdCaseWriterFoam.getSolverName` (source lines 130-178): selects the
solver from the physics model, the number of material objects, and the
presence of porous zones / porous baffle boundaries; raises `RuntimeError`
with the quoted message when no rule matches. -/
def getSolverName (phys : PhysicsModel) (materialCount : Nat)
    (porousZones porousBaffles : Bool) : Except String String :=
  if phys.Phase = "Single" then
    if materialCount = 1 then
      if phys.Flow = "Incompressible" then
        if phys.Thermal = "None" then
          if phys.Time = "Transient" then
            Except.ok "pimpleFoam"
          else
            if porousZones || porousBaffles then
              Except.ok "porousSimpleFoam"
            else
              Except.ok "simpleFoam"
        else
          Except.error "Only isothermal simulation currently supported for incompressible flow."
      else if phys.Flow = "Compressible" then
        if phys.Time = "Transient" then
          Except.ok "buoyantPimpleFoam"
        else
          Except.ok "buoyantSimpleFoam"
      else if phys.Flow = "HighMachCompressible" then
        Except.ok "hisa"
      else
        Except.error (phys.Flow ++ " flow model currently not supported.")
    else
      Except.error "Only one material object may be present for single phase simulation."
  else if phys.Phase = "FreeSurface" then
    if phys.Time = "Transient" then
      if phys.Thermal = "None" then
        if materialCount = 2 then
          Except.ok "interFoam"
        else if materialCount > 2 then
          Except.ok "multiphaseInterFoam"
        else
          Except.error "At least two material objects must be present for free surface simulation."
      else
        Except.error "Only isothermal analysis is currently supported for free surface flow simulation."
    else
      Except.error "Only transient analysis is supported for free surface flow simulation."
  else
    Except.error (phys.Phase ++ " phase model currently not supported.")

/-- Modelled from the spec: the solver decision table of spec section 4.1,
read rows top-down (`some` = the documented solver name, `none` = the
combination is outside the table and must fail with `UnsupportedPhysics`).
Rows: Single phase requires exactly one material; Single/Incompressible
requires Thermal=None and gives `pimpleFoam` (transient) or
`porousSimpleFoam`/`simpleFoam` (steady, depending on porous zones or a
porous baffle); Single/Compressible gives `buoyantPimpleFoam`/
`buoyantSimpleFoam`; Single/HighMachCompressible gives `hisa`;
FreeSurface requires Transient and Thermal=None and gives `interFoam`
(2 materials) or `multiphaseInterFoam` (more than 2). -/
def solverTable (phys : PhysicsModel) (materialCount : Nat)
    (porousZones porousBaffles : Bool) : Option String :=
  if phys.Phase = "Single" then
    if materialCount = 1 then
      if phys.Flow = "Incompressible" then
        if phys.Thermal = "None" then
          if phys.Time = "Transient" then some "pimpleFoam"
          else if porousZones || porousBaffles then some "porousSimpleFoam"
          else some "simpleFoam"
        else none
      else if phys.Flow = "Compressible" then
        if phys.Time = "Transient" then some "buoyantPimpleFoam"
        else some "buoyantSimpleFoam"
      else if phys.Flow = "HighMachCompressible" then some "hisa"
      else none
    else none
  else if phys.Phase = "FreeSurface" then
    if phys.Time = "Transient" then
      if phys.Thermal = "None" then
        if materialCount = 2 then some "interFoam"
        else if materialCount > 2 then some "multiphaseInterFoam"
        else none
      else none
    else none
  else none

/-- C1: for every physics model, material count and porous-zone/baffle
configuration, `getSolverName` returns a solver name exactly when the
spec's decision table names one, and then returns exactly that name — in
particular steady single-phase incompressible isothermal flow with one
material gives `porousSimpleFoam` when a porous zone or porous baffle is
present and `simpleFoam` otherwise, the transient variant gives
`pimpleFoam`, and transient isothermal free-surface flow gives `interFoam`
for two materials and `multiphaseInterFoam` for more; every combination
outside the table fails. -/
theorem getSolverName_matches_decision_table (phys : PhysicsModel)
    (materialCount : Nat) (porousZones porousBaffles : Bool) (s : String) :
    getSolverName phys materialCount porousZones porousBaffles = Except.ok s ↔
      solverTable phys materialCount porousZones porousBaffles = some s := by
  unfold getSolverName solverTable
  split_ifs <;> simp

/-- Solver settings record (`self.settings['solver']`, from `propsToDict`
of the solver object).  `ParallelCores` is a Python `int`. -/
structure SolverSettings where
  Parallel : Bool := false
  ParallelCores : Int := 1
  SolverName : String := ""

/-- `CfdCaseWriterFoam.processSolverSettings` (source lines 180-185): when a
parallel run is requested with fewer than 2 cores, silently raise the core
count to 2; then store the selected solver name (propagating any
`RuntimeError` from `getSolverName`). -/
def processSolverSettings (phys : PhysicsModel) (materialCount : Nat)
    (porousZones porousBaffles : Bool) (s : SolverSettings) :
    Except String SolverSettings :=
  let s := if s.Parallel = true ∧ s.ParallelCores < 2 then
      { s with ParallelCores := 2 }
    else s
  match getSolverName phys materialCount porousZones porousBaffles with
  | Except.ok n => Except.ok { s with SolverName := n }
  | Except.error e => Except.error e

/-- A concrete physics model inside the decision table (single-phase
transient incompressible isothermal), used to instantiate claims. -/
def physTransient : PhysicsModel :=
  { Phase := "Single", Flow := "Incompressible", Thermal := "None",
    Time := "Transient" }

/-- C8: `processSolverSettings` silently corrects a parallel run with fewer
than 2 cores to 2 cores and leaves every other core count unchanged: in
general any successful run with `Parallel` and fewer than 2 cores produces
2 cores and any other successful run keeps the requested count, and
concretely `ParallelCores = 1` and `ParallelCores = 0` both become `2`
while `ParallelCores = 8` stays `8` (without failing). -/
theorem processSolverSettings_parallel_cores :
    (∀ (phys : PhysicsModel) (mc : Nat) (pz pb : Bool) (s r : SolverSettings),
        processSolverSettings phys mc pz pb s = Except.ok r →
          (s.Parallel = true ∧ s.ParallelCores < 2 → r.ParallelCores = 2) ∧
          (¬(s.Parallel = true ∧ s.ParallelCores < 2) →
            r.ParallelCores = s.ParallelCores)) ∧
    (processSolverSettings physTransient 1 false false
        { Parallel := true, ParallelCores := 1 }).map (fun r => r.ParallelCores)
      = Except.ok 2 ∧
    (processSolverSettings physTransient 1 false false
        { Parallel := true, ParallelCores := 0 }).map (fun r => r.ParallelCores)
      = Except.ok 2 ∧
    (processSolverSettings physTransient 1 false false
        { Parallel := true, ParallelCores := 8 }).map (fun r => r.ParallelCores)
      = Except.ok 8 := by
  refine ⟨?_, by rfl, by rfl, by rfl⟩
  intro phys mc pz pb s r h
  unfold processSolverSettings at h
  constructor
  · intro hc
    rw [if_pos hc] at h
    revert h
    cases getSolverName phys mc pz pb <;> intro h
    · exact absurd h (by simp)
    · cases h
      rfl
  · intro hc
    rw [if_neg hc] at h
    revert h
    cases getSolverName phys mc pz pb <;> intro h
    · exact absurd h (by simp)
    · cases h
      rfl

/-- C8 witness: the general part of the previous theorem applied to the
concrete transient single-phase configuration with one requested core. -/
theorem processSolverSettings_parallel_cores_witness :
    ({ Parallel := true, ParallelCores := 1 : SolverSettings }.Parallel = true ∧
      ({ Parallel := true, ParallelCores := 1 : SolverSettings }).ParallelCores < 2) ∧
    ({ Parallel := true, ParallelCores := 2, SolverName := "pimpleFoam" :
        SolverSettings }).ParallelCores = 2 :=
  ⟨⟨rfl, by decide⟩,
    (processSolverSettings_parallel_cores.1 physTransient 1 false false
      { Parallel := true, ParallelCores := 1 }
      { Parallel := true, ParallelCores := 2, SolverName := "pimpleFoam" }
      (by rfl)).1 ⟨rfl, by decide⟩⟩

/-- Raw material record (`material_obj.Material` before processing): each
property is optional (`'X' in mp`), values already in SI units (the unit
conversion itself is the external `Units.Quantity` collaborator).
`MolarMass` is in kg/mol before processing. -/
structure MaterialIn where
  Density : Option ℝ := none
  DynamicViscosity : Option ℝ := none
  MolarMass : Option ℝ := none
  Cp : Option ℝ := none
  SutherlandTemperature : Option ℝ := none
  SutherlandRefViscosity : Option ℝ := none
  SutherlandRefTemperature : Option ℝ := none

/-- Processed material property set appended to
`settings['fluidProperties']` (source lines 208-234). -/
structure MaterialProps where
  Name : String := ""
  Density : Option ℝ := none
  DynamicViscosity : Option ℝ := none
  KinematicViscosity : Option ℝ := none
  MolarMass : Option ℝ := none
  Cp : Option ℝ := none
  SutherlandTemperature : Option ℝ := none
  SutherlandConstant : Option ℝ := none

/-- Body of the `processFluidProperties` loop (source lines 212-234) for one
material: convert present properties to SI (identity here, see module
conventions), force dynamic viscosity to 0 for inviscid turbulence, derive
kinematic viscosity as dynamic viscosity over density (`mp['Density']`
raises `KeyError` when absent), scale molar mass by 1000 (kg/kmol), and
derive the Sutherland constant `mu0 / T0 ** (3./2) * (T0 + T)` when the
Sutherland temperature and both reference values are present. -/
noncomputable def processMaterial (turbulence : String) (label : String)
    (m : MaterialIn) : Except String MaterialProps := do
  let viscPair ←
    match m.DynamicViscosity with
    | none => Except.ok (none, none)
    | some mu =>
      let mu := if turbulence = "Inviscid" then (0 : ℝ) else mu
      match m.Density with
      | none => Except.error "KeyError: Density"
      | some rho => Except.ok (some mu, some (mu / rho))
  let sutherPair :=
    match m.SutherlandTemperature with
    | none => (none, none)
    | some T =>
      match m.SutherlandRefViscosity, m.SutherlandRefTemperature with
      | some mu0, some T0 =>
        (some T, some (mu0 / T0 ^ ((1.5 : ℝ)) * (T0 + T)))
      | some _, none => (some T, none)
      | none, some _ => (some T, none)
      | none, none => (some T, none)
  Except.ok
    { Name := label
      Density := m.Density
      DynamicViscosity := viscPair.1
      KinematicViscosity := viscPair.2
      MolarMass := m.MolarMass.map (fun x => x * 1000)
      Cp := m.Cp
      SutherlandTemperature := sutherPair.1
      SutherlandConstant := sutherPair.2 }

/-- `CfdCaseWriterFoam.processFluidProperties` (source lines 208-234):
process each material in order, keeping the list order. -/
noncomputable def processFluidProperties (turbulence : String)
    (materials : List (String × MaterialIn)) :
    Except String (List MaterialProps) :=
  materials.mapM (fun p => processMaterial turbulence p.1 p.2)

/-- The concrete material of the spec's Sutherland test point:
`mu0 = 1.716e-5`, `T0 = 273.15`, Sutherland temperature `T = 300`. -/
noncomputable def sutherlandAir : MaterialIn :=
  { SutherlandTemperature := some 300
    SutherlandRefViscosity := some 1.716e-5
    SutherlandRefTemperature := some 273.15 }

/-- C6: whenever `SutherlandTemperature`, `SutherlandRefViscosity` and
`SutherlandRefTemperature` are all present (and the kinematic-viscosity
derivation does not abort on a missing density), `processMaterial` sets
`SutherlandConstant = mu0 / T0^1.5 * (T0 + T)`; at the concrete point
`mu0 = 1.716e-5`, `T0 = 273.15`, `T = 300` the computed constant equals
that formula exactly, hence matches it to within `1e-9` relative error. -/
theorem processMaterial_sutherland_constant :
    (∀ (turbulence label : String) (m : MaterialIn) (T mu0 T0 : ℝ),
        m.SutherlandTemperature = some T →
        m.SutherlandRefViscosity = some mu0 →
        m.SutherlandRefTemperature = some T0 →
        (m.DynamicViscosity = none ∨ m.Density.isSome = true) →
        (processMaterial turbulence label m).map
            (fun mp => mp.SutherlandConstant)
          = Except.ok (some (mu0 / T0 ^ ((1.5 : ℝ)) * (T0 + T)))) ∧
    (processMaterial "laminar" "Air" sutherlandAir).map
        (fun mp => mp.SutherlandConstant)
      = Except.ok
          (some ((1.716e-5 : ℝ) / (273.15 : ℝ) ^ ((1.5 : ℝ))
            * ((273.15 : ℝ) + 300))) ∧
    (∀ c : ℝ,
        (processMaterial "laminar" "Air" sutherlandAir).map
            (fun mp => mp.SutherlandConstant)
          = Except.ok (some c) →
        |c - (1.716e-5 : ℝ) / (273.15 : ℝ) ^ ((1.5 : ℝ)) * ((273.15 : ℝ) + 300)|
          ≤ 1e-9 * ((1.716e-5 : ℝ) / (273.15 : ℝ) ^ ((1.5 : ℝ))
              * ((273.15 : ℝ) + 300))) := by
  have hgen : ∀ (turbulence label : String) (m : MaterialIn) (T mu0 T0 : ℝ),
      m.SutherlandTemperature = some T →
      m.SutherlandRefViscosity = some mu0 →
      m.SutherlandRefTemperature = some T0 →
      (m.DynamicViscosity = none ∨ m.Density.isSome = true) →
      (processMaterial turbulence label m).map
          (fun mp => mp.SutherlandConstant)
        = Except.ok (some (mu0 / T0 ^ ((1.5 : ℝ)) * (T0 + T))) := by
    intro turbulence label m T mu0 T0 hT hmu0 hT0 hvisc
    unfold processMaterial
    rcases hd : m.DynamicViscosity with _ | mu
    · simp only [hd, hT, hmu0, hT0]
      rfl
    · rcases hvisc with hnone | hsome
      · rw [hd] at hnone
        exact absurd hnone (by simp)
      · rcases hrho : m.Density with _ | rho
        · rw [hrho] at hsome
          simp at hsome
        · simp only [hd, hrho, hT, hmu0, hT0]
          rfl
  refine ⟨hgen, ?_, ?_⟩
  · exact hgen "laminar" "Air" sutherlandAir 300 1.716e-5 273.15 rfl rfl rfl
      (Or.inl rfl)
  · intro c hc
    have h2 := hgen "laminar" "Air" sutherlandAir 300 1.716e-5 273.15 rfl rfl rfl
      (Or.inl rfl)
    rw [hc] at h2
    have hceq : c = (1.716e-5 : ℝ) / (273.15 : ℝ) ^ ((1.5 : ℝ)) * ((273.15 : ℝ) + 300) := by
      simpa using h2
    rw [hceq, sub_self, abs_zero]
    have hpos : (0 : ℝ) < (1.716e-5 : ℝ) / (273.15 : ℝ) ^ ((1.5 : ℝ)) * ((273.15 : ℝ) + 300) := by
      apply mul_pos
      · apply div_pos (by norm_num)
        exact Real.rpow_pos_of_pos (by norm_num) _
      · norm_num
    positivity

/-- C6 witness: the general Sutherland derivation applied to the concrete
test material. -/
theorem processMaterial_sutherland_constant_witness :
    sutherlandAir.SutherlandTemperature = some 300 ∧
    (processMaterial "laminar" "Air" sutherlandAir).map
        (fun mp => mp.SutherlandConstant)
      = Except.ok
          (some ((1.716e-5 : ℝ) / (273.15 : ℝ) ^ ((1.5 : ℝ))
            * ((273.15 : ℝ) + 300))) :=
  ⟨rfl, processMaterial_sutherland_constant.1 "laminar" "Air" sutherlandAir
    300 1.716e-5 273.15 rfl rfl rfl (Or.inl rfl)⟩

/-- Python dict insertion (`alphas_new[alpha_name] = alpha`) on a mapping
modelled as a lookup function. -/
def dinsert (key : String) (v : ℝ) (m : String → Option ℝ) :
    String → Option ℝ :=
  fun k => if k = key then some v else m k

/-- The volume-fraction loop written out identically at source lines
278-289 (boundary conditions), 301-312 (initial conditions) and 458-470
(initialisation zones): walk the ordered material names accumulating the
running sum `sum_alpha`; every material except the last gets its explicit
fraction (`.get(alpha_name, '0')`, i.e. default 0) recorded and added to
the sum; the last material gets `1.0 - sum_alpha`, and only when the
solver is `multiphaseInterFoam`. -/
def normLoop (solverName : String) (vf : String → Option ℝ) :
    List String → ℝ → (String → Option ℝ) → (String → Option ℝ)
  | [], _, acc => acc
  | name :: rest, sumAlpha, acc =>
    match rest with
    | [] =>
      if solverName = "multiphaseInterFoam" then
        dinsert name (1 - sumAlpha) acc
      else acc
    | _ :: _ =>
      normLoop solverName vf rest (sumAlpha + ((vf name).getD 0))
        (dinsert name ((vf name).getD 0) acc)

/-- Volume-fraction normalization: rebuild the fractions mapping
(`alphas_new = {}` then the loop) from the ordered material names. -/
def normalizeVolumeFractions (solverName : String) (matNames : List String)
    (vf : String → Option ℝ) : String → Option ℝ :=
  normLoop solverName vf matNames 0 (fun _ => none)

theorem getLast?_mem_self {l : List String} {x : String}
    (h : l.getLast? = some x) : x ∈ l := by
  have hx := List.mem_getLast?_eq_getLast (l := l) (x := x)
    (by simpa [Option.mem_def] using h)
  rcases hx with ⟨h1, h2⟩
  exact h2 ▸ List.getLast_mem h1

/-- Lookup characterization of the volume-fraction loop for pairwise
distinct material names: non-last names map to their explicit fraction
(default 0), the last name maps to one minus the accumulated sum exactly
for `multiphaseInterFoam`, and everything else falls through to the
accumulator. -/
theorem normLoop_lookup (solverName : String) (vf : String → Option ℝ) :
    ∀ (names : List String), names.Nodup →
      ∀ (sumAlpha : ℝ) (acc : String → Option ℝ) (k : String),
        normLoop solverName vf names sumAlpha acc k =
          if k ∈ names.dropLast then some ((vf k).getD 0)
          else if solverName = "multiphaseInterFoam" ∧
              names.getLast? = some k then
            some (1 - (sumAlpha +
              ((names.dropLast.map (fun n => (vf n).getD 0)).sum)))
          else acc k := by
  intro names
  induction names with
  | nil =>
    intro _ sumAlpha acc k
    simp [normLoop]
  | cons a tail ih =>
    intro hnd sumAlpha acc k
    have ha : a ∉ tail := (List.nodup_cons.mp hnd).1
    have hnd' : tail.Nodup := (List.nodup_cons.mp hnd).2
    cases tail with
    | nil =>
      by_cases hs : solverName = "multiphaseInterFoam"
      · by_cases hk : k = a
        · subst hk
          simp [normLoop, dinsert, hs]
        · have hk2 : ¬(a = k) := fun h => hk h.symm
          simp [normLoop, dinsert, hs, hk, hk2]
      · simp [normLoop, dinsert, hs]
    | cons b rest =>
      have hstep : normLoop solverName vf (a :: b :: rest) sumAlpha acc k =
          normLoop solverName vf (b :: rest)
            (sumAlpha + ((vf a).getD 0))
            (dinsert a ((vf a).getD 0) acc) k := by
        simp [normLoop]
      rw [hstep, ih hnd']
      by_cases hk : k = a
      · subst hk
        have hnd1 : k ∉ (b :: rest).dropLast :=
          fun hmem => ha (List.dropLast_subset _ hmem)
      
        have hnd2 : ¬(solverName = "multiphaseInterFoam" ∧
            (b :: rest).getLast? = some k) := by
          rintro ⟨_, hlast⟩
          exact ha (getLast?_mem_self hlast)
        rw [if_neg hnd1, if_neg hnd2]
        simp [dinsert, List.dropLast_cons₂]
      · have hmem : k ∈ (a :: b :: rest).dropLast ↔ k ∈ (b :: rest).dropLast := by
          rw [List.dropLast_cons₂]
          simp [hk]
        by_cases hin : k ∈ (b :: rest).dropLast
        · rw [if_pos hin, if_pos (hmem.mpr hin)]
        · rw [if_neg hin, if_neg (fun h => hin (hmem.mp h))]
          rw [List.getLast?_cons_cons]
          by_cases hlast : solverName = "multiphaseInterFoam" ∧
              (b :: rest).getLast? = some k
          · rw [if_pos hlast, if_pos hlast]
            rw [List.dropLast_cons₂]
            simp only [List.map_cons, List.sum_cons]
            ring_nf
          · rw [if_neg hlast, if_neg hlast]
            simp [dinsert, hk]

/-- Lookup characterization of `normalizeVolumeFractions` itself. -/
theorem normalizeVolumeFractions_lookup (solverName : String)
    (names : List String) (vf : String → Option ℝ) (hnd : names.Nodup)
    (k : String) :
    normalizeVolumeFractions solverName names vf k =
      if k ∈ names.dropLast then some ((vf k).getD 0)
      else if solverName = "multiphaseInterFoam" ∧
          names.getLast? = some k then
        some (1 - ((names.dropLast.map (fun n => (vf n).getD 0)).sum))
      else none := by
  unfold normalizeVolumeFractions
  rw [normLoop_lookup solverName vf names hnd 0 (fun _ => none) k]
  ring_nf

/-- C9: for pairwise distinct material names the volume-fraction
normalization step is idempotent (for either free-surface solver), and for
`multiphaseInterFoam` with at least one material whose first N-1 fractions
are explicit, the normalized fractions sum to 1. -/
theorem normalizeVolumeFractions_idempotent_sum_one :
    (∀ (solverName : String) (names : List String) (vf : String → Option ℝ),
        (solverName = "interFoam" ∨ solverName = "multiphaseInterFoam") →
        names.Nodup →
        normalizeVolumeFractions solverName names
            (normalizeVolumeFractions solverName names vf)
          = normalizeVolumeFractions solverName names vf) ∧
    (∀ (names : List String) (vf : String → Option ℝ),
        names.Nodup → names ≠ [] →
        (∀ n ∈ names.dropLast, (vf n).isSome = true) →
        ((names.map (fun n =>
            ((normalizeVolumeFractions "multiphaseInterFoam" names vf n).getD 0))).sum)
          = 1) := by
  have hmapeq : ∀ (solverName : String) (names : List String)
      (vf : String → Option ℝ), names.Nodup →
      names.dropLast.map
          (fun n => ((normalizeVolumeFractions solverName names vf n).getD 0))
        = names.dropLast.map (fun n => ((vf n).getD 0)) := by
    intro solverName names vf hnd
    apply List.map_congr_left
    intro n hn
    rw [normalizeVolumeFractions_lookup solverName names vf hnd n, if_pos hn]
    simp
  constructor
  · intro solverName names vf _ hnd
    funext k
    rw [normalizeVolumeFractions_lookup solverName names
      (normalizeVolumeFractions solverName names vf) hnd k,
      normalizeVolumeFractions_lookup solverName names vf hnd k]
    by_cases hin : k ∈ names.dropLast
    · rw [if_pos hin, if_pos hin]
      simp
    · rw [if_neg hin, if_neg hin]
      by_cases hlast : solverName = "multiphaseInterFoam" ∧
          names.getLast? = some k
      · rw [if_pos hlast, if_pos hlast, hmapeq solverName names vf hnd]
      · rw [if_neg hlast, if_neg hlast]
  · intro names vf hnd hne _
    have hx : ∃ x, names.getLast? = some x := by
      rcases names with _ | ⟨a, tail⟩
      · exact absurd rfl hne
      · exact ⟨(a :: tail).getLast (by simp), List.getLast?_eq_getLast _ _⟩
    rcases hx with ⟨x, hxeq⟩
    have hdecomp : names.dropLast ++ [x] = names :=
      List.dropLast_append_getLast? x (by simpa [Option.mem_def] using hxeq)
    have hxnot : x ∉ names.dropLast := by
      intro hmem
      have : names.Nodup := hnd
      rw [← hdecomp] at this
      rcases List.nodup_append.mp this with ⟨_, _, hdisj⟩
      exact hdisj hmem (by simp)
    calc ((names.map (fun n =>
            ((normalizeVolumeFractions "multiphaseInterFoam" names vf n).getD 0))).sum)
        = (((names.dropLast ++ [x]).map (fun n =>
            ((normalizeVolumeFractions "multiphaseInterFoam" names vf n).getD 0))).sum) := by
          rw [hdecomp]
      _ = ((names.dropLast.map (fun n =>
            ((normalizeVolumeFractions "multiphaseInterFoam" names vf n).getD 0))).sum)
          + ((normalizeVolumeFractions "multiphaseInterFoam" names vf x).getD 0) := by
          simp
      _ = ((names.dropLast.map (fun n => ((vf n).getD 0))).sum)
          + (1 - ((names.dropLast.map (fun n => ((vf n).getD 0))).sum)) := by
          rw [hmapeq _ names vf hnd]
          rw [normalizeVolumeFractions_lookup _ names vf hnd x, if_neg hxnot,
            if_pos ⟨rfl, hxeq⟩]
          simp
      _ = 1 := by ring

/-- A geometric element returned by `Shape.getElement`: its shape type, the
planarity predicate of `CfdTools.is_planar`, and `normalAt(u, v)` (the
outward unit normal at the given parametric coordinates — the unit-length
guarantee belongs to the external geometry collaborator). -/
structure GeomElement where
  ShapeType : String := ""
  planar : Bool := false
  normalAt : ℝ → ℝ → ℝ × ℝ × ℝ := fun _ _ => (0, 0, 0)

/-- The `Shape` attribute of a document object: sub-element lookup by name.
`none` models the lookup exceptions of the external geometry interface,
which the source catches (`except (SystemError, RuntimeError)`). -/
structure GeomShape where
  getElement : String → Option GeomElement := fun _ => none

/-- A document object as returned by `Document.getObject`; `Shape = none`
models `hasattr(selected_object, "Shape")` being false. -/
structure DocObject where
  Shape : Option GeomShape := none

/-- The document: object lookup by name (`getObject` returns `None` for an
unknown name, modelled as `none`). -/
def Document : Type := String → Option DocObject

/-- A boundary-condition record (`propsToDict(b)` for one boundary object),
restricted to the fields the processors read or write. -/
structure Boundary where
  BoundaryType : String := ""
  BoundarySubType : String := ""
  ThermalBoundaryType : String := ""
  TurbulenceInletSpecification : String := ""
  VelocityIsCartesian : Bool := true
  ReverseNormal : Bool := false
  DirectionFace : String := ""
  References : List (String × String) := []
  VelocityMag : ℝ := 0
  Ux : ℝ := 0
  Uy : ℝ := 0
  Uz : ℝ := 0
  Pressure : ℝ := 0
  KinematicPressure : ℝ := 0
  Temperature : ℝ := 0
  TurbulentKineticEnergy : ℝ := 0
  SpecificDissipationRate : ℝ := 0
  TurbulenceIntensity : ℝ := 0
  TurbulenceLengthScale : ℝ := 0
  PorousBaffleMethod : String := ""
  ScreenWireDiameter : ℝ := 0
  ScreenSpacing : ℝ := 0
  PressureDropCoeff : ℝ := 0
  VolumeFractions : String → Option ℝ := fun _ => none

/-- Helper for `pySplit`: split a character list on a separator character,
keeping empty groups (Python `str.split` semantics). -/
def splitChars (sep : Char) : List Char → List (List Char)
  | [] => [[]]
  | c :: cs =>
    let r := splitChars sep cs
    if c = sep then [] :: r
    else
      match r with
      | [] => [[c]]
      | g :: gs => (c :: g) :: gs

/-- Python `s.split(':')` (`bc['DirectionFace'].split(':')`): always yields
at least one part; keeps empty parts. -/
def pySplit (sep : Char) (s : String) : List String :=
  (splitChars sep s.toList).map (fun cs => String.mk cs)

/-- Direction-face resolution of `processBoundaryConditions` (source lines
241-264): split `DirectionFace` on `:`; when the part before the colon
(`face[0]`, the object name) is empty, fall back to the boundary's first
geometric reference (`bc['References'][0]`, `IndexError` when there is
none).  Then, inside the `try` block, look the object up in the document,
require a `Shape`, fetch the element (`face[1]` — an `IndexError` when the
reference had no colon part, which the `except (SystemError,
RuntimeError)` handler does not catch), require a planar `Face`, take the
normal at the parametric centre `(0.5, 0.5)`, negate it under
`ReverseNormal`, and scale by `VelocityMag`; every caught failure becomes
the descriptive error naming `DirectionFace`. -/
def directionFaceVelocity (doc : Document) (bc : Boundary) :
    Except String (ℝ × ℝ × ℝ) :=
  let veloMag := bc.VelocityMag
  let parts := pySplit ':' bc.DirectionFace
  let faceRef : Except String (String × Option String) :=
    if parts.headD "" = "" then
      match bc.References.head? with
      | some r => Except.ok (r.1, some r.2)
      | none => Except.error "IndexError: list index out of range"
    else Except.ok (parts.headD "", parts.get? 1)
  match faceRef with
  | Except.error e => Except.error e
  | Except.ok (objName, faceName) =>
    match doc objName with
    | none => Except.error (bc.DirectionFace ++ " is not a valid, planar face.")
    | some obj =>
      match obj.Shape with
      | none => Except.error (bc.DirectionFace ++ " is not a valid, planar face.")
      | some shape =>
        match faceName with
        | none => Except.error "IndexError: list index out of range"
        | some fname =>
          match shape.getElement fname with
          | none => Except.error (bc.DirectionFace ++ " is not a valid, planar face.")
          | some elt =>
            if elt.ShapeType = "Face" ∧ elt.planar = true then
              let n := elt.normalAt 0.5 0.5
              let n := if bc.ReverseNormal = true then
                  (-n.1, -n.2.1, -n.2.2)
                else n
              Except.ok (n.1 * veloMag, n.2.1 * veloMag, n.2.2 * veloMag)
            else Except.error (bc.DirectionFace ++ " is not a valid, planar face.")

/-- Kinematic-pressure derivation of `processBoundaryConditions` (source
lines 265-266): for the three incompressible single-phase solvers, divide
the boundary pressure by the density of the first material. -/
noncomputable def kinPressureBC (solverName : String) (fluidProperties : List MaterialProps)
    (bc : Boundary) : Except String Boundary :=
  if solverName = "simpleFoam" ∨ solverName = "porousSimpleFoam" ∨
      solverName = "pimpleFoam" then
    match fluidProperties.head? with
    | none => Except.error "IndexError: list index out of range"
    | some mat =>
      match mat.Density with
      | none => Except.error "KeyError: Density"
      | some rho => Except.ok { bc with KinematicPressure := bc.Pressure / rho }
  else Except.ok bc

/-- Porous-screen pressure-drop derivation of `processBoundaryConditions`
(source lines 268-273, Simmons screen model with `CD = 1.0`). -/
noncomputable def porousScreenBC (bc : Boundary) : Boundary :=
  if bc.PorousBaffleMethod = "porousScreen" then
    let wireDiam := bc.ScreenWireDiameter
    let spacing := bc.ScreenSpacing
    let CD : ℝ := 1.0
    let beta := (1 - wireDiam / spacing) ^ (2 : ℕ)
    { bc with PressureDropCoeff := CD * (1 - beta) }
  else bc

/-- Volume-fraction rewrite of `processBoundaryConditions` (source lines
275-289): for the two free-surface solvers, replace the boundary's
`VolumeFractions` with the normalized mapping. -/
def alphasBC (solverName : String) (fluidProperties : List MaterialProps)
    (bc : Boundary) : Boundary :=
  if solverName = "interFoam" ∨ solverName = "multiphaseInterFoam" then
    let names := fluidProperties.map (fun m => m.Name)
    { bc with VolumeFractions :=
        normalizeVolumeFractions solverName names bc.VolumeFractions }
  else bc

/-- Body of the `processBoundaryConditions` loop (source lines 239-289) for
one boundary, in source order: direction-face velocity (only when the
velocity is not Cartesian), kinematic pressure, porous-screen coefficient,
volume-fraction normalization. -/
noncomputable def processBoundary (doc : Document) (solverName : String)
    (fluidProperties : List MaterialProps) (bc : Boundary) :
    Except String Boundary := do
  let bc ←
    if bc.VelocityIsCartesian = true then Except.ok bc
    else
      (directionFaceVelocity doc bc).map
        (fun v => { bc with Ux := v.1, Uy := v.2.1, Uz := v.2.2 })
  let bc ← kinPressureBC solverName fluidProperties bc
  let bc := porousScreenBC bc
  Except.ok (alphasBC solverName fluidProperties bc)

/-- `CfdCaseWriterFoam.processBoundaryConditions` (source lines 236-289):
process every boundary of the settings document, keyed by label. -/
noncomputable def processBoundaryConditions (doc : Document) (solverName : String)
    (fluidProperties : List MaterialProps)
    (boundaries : List (String × Boundary)) :
    Except String (List (String × Boundary)) :=
  boundaries.mapM (fun p =>
    (processBoundary doc solverName fluidProperties p.2).map (fun b => (p.1, b)))

/-- Record update `bc['VolumeFractions'] = alphas_new` as a function, to
keep statements one-line-parsable. -/
def setVolumeFractions (bc : Boundary) (vf : String → Option ℝ) : Boundary :=
  { bc with VolumeFractions := vf }

theorem getLast?_not_mem_dropLast {l : List String} {x : String}
    (hnd : l.Nodup) (h : l.getLast? = some x) : x ∉ l.dropLast := by
  intro hmem
  have hdecomp : l.dropLast ++ [x] = l :=
    List.dropLast_append_getLast? x (by simpa [Option.mem_def] using h)
  rw [← hdecomp] at hnd
  rcases List.nodup_append.mp hnd with ⟨_, _, hdisj⟩
  exact hdisj hmem (by simp)

/-- Concrete processed materials named A, B, C for instantiating the
volume-fraction claims. -/
noncomputable def matA : MaterialProps := { Name := "A" }

noncomputable def matB : MaterialProps := { Name := "B" }

noncomputable def matC : MaterialProps := { Name := "C" }

/-- Concrete fractions mapping: A explicit 0.3, B explicit 0.2, C absent. -/
noncomputable def vf3 : String → Option ℝ :=
  fun n => if n = "A" then some 0.3 else if n = "B" then some 0.2 else none

/-- Concrete boundary with Cartesian velocity and the fractions `vf3`. -/
noncomputable def bc3 : Boundary :=
  { VelocityIsCartesian := true, VolumeFractions := vf3 }

/-- The empty document (no geometry needed for Cartesian velocities). -/
def doc0 : Document := fun _ => none

/-- C3: for the free-surface solvers, `processBoundary` rewrites the
boundary's `VolumeFractions` to the normalized mapping in which every
material except the last carries its explicit fraction (default 0), the
last material carries 1 minus the running sum exactly for
`multiphaseInterFoam` and is omitted for `interFoam`; concretely, three
materials with explicit fractions 0.3 and 0.2 resolve the third to 0.5
under `multiphaseInterFoam`. -/
theorem processBoundary_volume_fractions :
    (∀ (doc : Document) (solverName : String)
        (fluidProperties : List MaterialProps) (bc : Boundary),
        (solverName = "interFoam" ∨ solverName = "multiphaseInterFoam") →
        bc.VelocityIsCartesian = true →
        bc.PorousBaffleMethod ≠ "porousScreen" →
        processBoundary doc solverName fluidProperties bc =
          Except.ok (setVolumeFractions bc (normalizeVolumeFractions solverName
            (fluidProperties.map (fun m => m.Name)) bc.VolumeFractions)) ∧
        ((fluidProperties.map (fun m => m.Name)).Nodup →
          (∀ k ∈ (fluidProperties.map (fun m => m.Name)).dropLast,
            normalizeVolumeFractions solverName
                (fluidProperties.map (fun m => m.Name)) bc.VolumeFractions k
              = some ((bc.VolumeFractions k).getD 0)) ∧
          (∀ k, (fluidProperties.map (fun m => m.Name)).getLast? = some k →
            (solverName = "interFoam" →
              normalizeVolumeFractions solverName
                  (fluidProperties.map (fun m => m.Name)) bc.VolumeFractions k
                = none) ∧
            (solverName = "multiphaseInterFoam" →
              normalizeVolumeFractions solverName
                  (fluidProperties.map (fun m => m.Name)) bc.VolumeFractions k
                = some (1 -
                    (((fluidProperties.map (fun m => m.Name)).dropLast.map
                      (fun n => (bc.VolumeFractions n).getD 0)).sum)))))) ∧
    (processBoundary doc0 "multiphaseInterFoam" [matA, matB, matC] bc3).map
        (fun b => b.VolumeFractions "C")
      = Except.ok (some 0.5) := by
  have hgen : ∀ (doc : Document) (solverName : String)
      (fluidProperties : List MaterialProps) (bc : Boundary),
      (solverName = "interFoam" ∨ solverName = "multiphaseInterFoam") →
      bc.VelocityIsCartesian = true →
      bc.PorousBaffleMethod ≠ "porousScreen" →
      processBoundary doc solverName fluidProperties bc =
        Except.ok (setVolumeFractions bc (normalizeVolumeFractions solverName
          (fluidProperties.map (fun m => m.Name)) bc.VolumeFractions)) := by
    intro doc solverName fluidProperties bc hs hcart hp
    unfold processBoundary
    rw [if_pos hcart]
    have hkin : kinPressureBC solverName fluidProperties bc = Except.ok bc := by
      unfold kinPressureBC
      rcases hs with h | h <;> subst h <;> rw [if_neg (by decide)]
    have hscreen : porousScreenBC bc = bc := by
      unfold porousScreenBC
      rw [if_neg hp]
    have halpha : alphasBC solverName fluidProperties bc =
        setVolumeFractions bc (normalizeVolumeFractions solverName
          (fluidProperties.map (fun m => m.Name)) bc.VolumeFractions) := by
      unfold alphasBC setVolumeFractions
      rcases hs with h | h <;> subst h <;> rw [if_pos (by simp)]
    show Except.bind (Except.ok bc) _ = _
    rw [Except.bind]
    show Except.bind (kinPressureBC solverName fluidProperties bc) _ = _
    rw [hkin, Except.bind]
    show Except.ok (alphasBC solverName fluidProperties (porousScreenBC bc)) = _
    rw [hscreen, halpha]
  refine ⟨fun doc solverName fluidProperties bc hs hcart hp =>
    ⟨hgen doc solverName fluidProperties bc hs hcart hp, fun hnd => ⟨?_, ?_⟩⟩, ?_⟩
  · intro k hk
    rw [normalizeVolumeFractions_lookup _ _ _ hnd k, if_pos hk]
  · intro k hlast
    have hnotmem : k ∉ (fluidProperties.map (fun m => m.Name)).dropLast :=
      getLast?_not_mem_dropLast hnd hlast
    constructor
    · intro hsolver
      rw [normalizeVolumeFractions_lookup _ _ _ hnd k, if_neg hnotmem,
        if_neg (by subst hsolver; rintro ⟨h1, _⟩; exact absurd h1 (by decide))]
    · intro hsolver
      rw [normalizeVolumeFractions_lookup _ _ _ hnd k, if_neg hnotmem,
        if_pos ⟨hsolver, hlast⟩]
  · have h := hgen doc0 "multiphaseInterFoam" [matA, matB, matC] bc3
      (Or.inr rfl) rfl (by decide)
    rw [h]
    have hnd : ([matA, matB, matC].map (fun m => m.Name)).Nodup := by
      simp [matA, matB, matC]
    show Except.ok (normalizeVolumeFractions "multiphaseInterFoam"
      ([matA, matB, matC].map (fun m => m.Name)) bc3.VolumeFractions "C") = _
    rw [normalizeVolumeFractions_lookup _ _ _ hnd "C",
      if_neg (by simp [matA, matB, matC]),
      if_pos ⟨rfl, by simp [matA, matB, matC]⟩]
    have : bc3.VolumeFractions = vf3 := rfl
    rw [this]
    simp [matA, matB, matC, vf3]
    norm_num

/-- C3 witness: the general normalization statement applied to the
concrete three-material boundary under `interFoam`. -/
theorem processBoundary_volume_fractions_witness :
    processBoundary doc0 "interFoam" [matA, matB, matC] bc3 =
      Except.ok (setVolumeFractions bc3 (normalizeVolumeFractions "interFoam"
        ([matA, matB, matC].map (fun m => m.Name)) bc3.VolumeFractions)) :=
  (processBoundary_volume_fractions.1 doc0 "interFoam" [matA, matB, matC] bc3
    (Or.inl rfl) rfl (by decide)).1

/-- C9 witness: idempotence and unit sum instantiated at the concrete
three-material configuration with explicit fractions 0.3 and 0.2. -/
theorem normalizeVolumeFractions_idempotent_sum_one_witness :
    normalizeVolumeFractions "multiphaseInterFoam" ["A", "B", "C"]
        (normalizeVolumeFractions "multiphaseInterFoam" ["A", "B", "C"] vf3)
      = normalizeVolumeFractions "multiphaseInterFoam" ["A", "B", "C"] vf3 ∧
    ((["A", "B", "C"].map (fun n =>
        ((normalizeVolumeFractions "multiphaseInterFoam" ["A", "B", "C"] vf3 n).getD 0))).sum)
      = 1 :=
  ⟨normalizeVolumeFractions_idempotent_sum_one.1 "multiphaseInterFoam"
      ["A", "B", "C"] vf3 (Or.inr rfl) (by decide),
    normalizeVolumeFractions_idempotent_sum_one.2 ["A", "B", "C"] vf3
      (by decide) (by decide) (by intro n hn; fin_cases hn <;> rfl)⟩

/-- Record update of the derived velocity components
(`bc['Ux']/bc['Uy']/bc['Uz'] = velocity[0..2]`). -/
def setVelocity (bc : Boundary) (v : ℝ × ℝ × ℝ) : Boundary :=
  { bc with Ux := v.1, Uy := v.2.1, Uz := v.2.2 }

/-- Modelled from the claim as written (used only to exhibit its
counterexample): resolve `DirectionFace` as an "ObjectName:FaceName"
reference, defaulting to the boundary's own first geometric reference when
the FACE name is empty; fail with the descriptive invalid-face error
unless the face exists and is planar; otherwise return the unit normal at
the parametric centre, negated under `ReverseNormal`, times
`VelocityMag`. -/
noncomputable def directionFaceVelocitySpecC (doc : Document) (bc : Boundary) :
    Except String (ℝ × ℝ × ℝ) :=
  let parts := pySplit ':' bc.DirectionFace
  let objName := parts.headD ""
  let faceName := parts.getD 1 ""
  let ref : Option (String × String) :=
    if faceName = "" then bc.References.head? else some (objName, faceName)
  match ref with
  | none => Except.error "IndexError: list index out of range"
  | some rf =>
    match doc rf.1 with
    | none => Except.error (bc.DirectionFace ++ " is not a valid, planar face.")
    | some obj =>
      match obj.Shape with
      | none => Except.error (bc.DirectionFace ++ " is not a valid, planar face.")
      | some shape =>
        match shape.getElement rf.2 with
        | none => Except.error (bc.DirectionFace ++ " is not a valid, planar face.")
        | some elt =>
          if elt.ShapeType = "Face" ∧ elt.planar = true then
            let n := elt.normalAt 0.5 0.5
            let n := if bc.ReverseNormal = true then
                (-n.1, -n.2.1, -n.2.2)
              else n
            Except.ok (n.1 * bc.VelocityMag, n.2.1 * bc.VelocityMag,
              n.2.2 * bc.VelocityMag)
          else Except.error (bc.DirectionFace ++ " is not a valid, planar face.")

/-- Modelled from the amended claim: identical to the claim's reading
except that the fallback to the boundary's first geometric reference is
taken when the OBJECT-name part (the part before the colon) is empty,
which is what `if not face[0]` tests in the source. -/
noncomputable def directionFaceVelocitySpecA (doc : Document) (bc : Boundary) :
    Except String (ℝ × ℝ × ℝ) :=
  let parts := pySplit ':' bc.DirectionFace
  let objName := parts.headD ""
  let faceName := parts.getD 1 ""
  let ref : Option (String × String) :=
    if objName = "" then bc.References.head? else some (objName, faceName)
  match ref with
  | none => Except.error "IndexError: list index out of range"
  | some rf =>
    match doc rf.1 with
    | none => Except.error (bc.DirectionFace ++ " is not a valid, planar face.")
    | some obj =>
      match obj.Shape with
      | none => Except.error (bc.DirectionFace ++ " is not a valid, planar face.")
      | some shape =>
        match shape.getElement rf.2 with
        | none => Except.error (bc.DirectionFace ++ " is not a valid, planar face.")
        | some elt =>
          if elt.ShapeType = "Face" ∧ elt.planar = true then
            let n := elt.normalAt 0.5 0.5
            let n := if bc.ReverseNormal = true then
                (-n.1, -n.2.1, -n.2.2)
              else n
            Except.ok (n.1 * bc.VelocityMag, n.2.1 * bc.VelocityMag,
              n.2.2 * bc.VelocityMag)
          else Except.error (bc.DirectionFace ++ " is not a valid, planar face.")

/-- For an "ObjectName:FaceName" reference (exactly one colon), the
source's direction-face resolution agrees with the amended reading. -/
theorem directionFaceVelocity_eq_amended (doc : Document) (bc : Boundary)
    (hlen : (pySplit ':' bc.DirectionFace).length = 2) :
    directionFaceVelocity doc bc = directionFaceVelocitySpecA doc bc := by
  rcases List.length_eq_two.mp hlen with ⟨a, b, heq⟩
  unfold directionFaceVelocity directionFaceVelocitySpecA
  simp only [heq, List.headD_cons, List.getD, List.get?, Option.getD_some]
  by_cases ha : a = ""
  · simp only [ha, if_pos rfl]
    cases bc.References.head? with
    | none => rfl
    | some r => rfl
  · simp only [if_neg ha]

/-- C5 (amended): for a boundary whose velocity is not Cartesian and whose
`DirectionFace` is an "ObjectName:FaceName" reference (and whose other
derivations do not apply), `processBoundary` behaves exactly as the
amended claim describes: it resolves the reference — defaulting to the
boundary's first geometric reference when the OBJECT-name part is empty —
fails with the descriptive invalid-face error unless the face exists and
is planar, and otherwise sets (Ux, Uy, Uz) to the face's unit normal at
the parametric centre (0.5, 0.5), negated under `ReverseNormal`, times
`VelocityMag`. -/
theorem processBoundary_direction_face_amended (doc : Document)
    (solverName : String) (fluidProperties : List MaterialProps)
    (bc : Boundary)
    (hcart : bc.VelocityIsCartesian = false)
    (hs1 : ¬(solverName = "simpleFoam" ∨ solverName = "porousSimpleFoam" ∨
      solverName = "pimpleFoam"))
    (hs2 : ¬(solverName = "interFoam" ∨ solverName = "multiphaseInterFoam"))
    (hp : bc.PorousBaffleMethod ≠ "porousScreen")
    (hlen : (pySplit ':' bc.DirectionFace).length = 2) :
    processBoundary doc solverName fluidProperties bc =
      (directionFaceVelocitySpecA doc bc).map (setVelocity bc) := by
  rw [← directionFaceVelocity_eq_amended doc bc hlen]
  unfold processBoundary
  rw [if_neg (by simp [hcart])]
  cases hdf : directionFaceVelocity doc bc with
  | error e => rfl
  | ok v =>
    have hbc2 : setVelocity bc v = { bc with Ux := v.1, Uy := v.2.1, Uz := v.2.2 } := rfl
    have hkin : kinPressureBC solverName fluidProperties (setVelocity bc v)
        = Except.ok (setVelocity bc v) := by
      unfold kinPressureBC
      rw [if_neg hs1]
    have hscreen : porousScreenBC (setVelocity bc v) = setVelocity bc v := by
      unfold porousScreenBC
      rw [if_neg (by simp [setVelocity]; exact hp)]
    have halpha : alphasBC solverName fluidProperties (setVelocity bc v)
        = setVelocity bc v := by
      unfold alphasBC
      rw [if_neg hs2]
    show Except.bind (Except.map _ (Except.ok v)) _ = _
    simp only [Except.map]
    show Except.bind (Except.ok (setVelocity bc v)) _ = _
    rw [Except.bind]
    show Except.bind (kinPressureBC solverName fluidProperties (setVelocity bc v)) _ = _
    rw [hkin, Except.bind]
    show Except.ok (alphasBC solverName fluidProperties
      (porousScreenBC (setVelocity bc v))) = _
    rw [hscreen, halpha]

/-- The planar unit-z face used by the direction-face scenarios. -/
noncomputable def faceZ : GeomElement :=
  { ShapeType := "Face", planar := true, normalAt := fun _ _ => (0, 0, 1) }

/-- A shape exposing exactly the element "Face1". -/
noncomputable def shapeX : GeomShape :=
  { getElement := fun f => if f = "Face1" then some faceZ else none }

/-- A document with exactly the object "Obj" carrying `shapeX`. -/
noncomputable def docX : Document :=
  fun o => if o = "Obj" then some { Shape := some shapeX } else none

/-- A non-Cartesian boundary whose `DirectionFace` has an empty FACE-name
part ("Obj:") but a non-empty object part, and whose first geometric
reference is the valid planar face. -/
noncomputable def bcX : Boundary :=
  { VelocityIsCartesian := false, DirectionFace := "Obj:",
    References := [("Obj", "Face1")], VelocityMag := 5 }

/-- A non-Cartesian boundary with the full reference "Obj:Face1". -/
noncomputable def bcW : Boundary :=
  { VelocityIsCartesian := false, DirectionFace := "Obj:Face1",
    References := [], VelocityMag := 5 }

/-- C5 counterexample: on the boundary `bcX` (face-name part empty, object
part "Obj" present, first reference a valid planar face) the claim as
written predicts the default to the first geometric reference and hence
the velocity (0, 0, 5), but the source does not default — it looks up the
empty element name and fails with the descriptive invalid-face error. -/
theorem directionFace_default_counterexample :
    processBoundary docX "buoyantSimpleFoam" [] bcX
      = Except.error "Obj: is not a valid, planar face." ∧
    directionFaceVelocitySpecC docX bcX = Except.ok (0, 0, 5) := by
  constructor
  · rfl
  · have h : directionFaceVelocitySpecC docX bcX
        = Except.ok ((0 : ℝ) * 5, (0 : ℝ) * 5, (1 : ℝ) * 5) := rfl
    rw [h]
    norm_num

/-- C5 witness: the amended statement applied to the boundary `bcW`
carrying the complete reference "Obj:Face1". -/
theorem processBoundary_direction_face_amended_witness :
    bcW.VelocityIsCartesian = false ∧
    processBoundary docX "buoyantSimpleFoam" [] bcW
      = (directionFaceVelocitySpecA docX bcW).map (setVelocity bcW) :=
  ⟨rfl, processBoundary_direction_face_amended docX "buoyantSimpleFoam" [] bcW
    rfl (by decide) (by decide) (by decide) (by decide)⟩

/-- Initial-values record (`settings['initialValues']`, from `propsToDict`
of the initial-conditions object).  The `BoundaryX` fields hold the label
of the designated source boundary, or `none` when no boundary is
designated (`None` in the document). -/
structure InitialValues where
  PotentialFlowP : Bool := false
  UseInletUValues : Bool := false
  UseOutletPValue : Bool := false
  UseInletTemperatureValue : Bool := false
  UseInletTurbulenceValues : Bool := false
  BoundaryU : Option String := none
  BoundaryP : Option String := none
  BoundaryT : Option String := none
  BoundaryTurb : Option String := none
  Pressure : ℝ := 0
  KinematicPressure : ℝ := 0
  Ux : ℝ := 0
  Uy : ℝ := 0
  Uz : ℝ := 0
  Temperature : ℝ := 0
  k : ℝ := 0
  omega : ℝ := 0
  VolumeFractions : String → Option ℝ := fun _ => none

/-- `settings['boundaries'][label]` (a Python dict lookup: `KeyError` on a
missing label). -/
def lookupBoundary (boundaries : List (String × Boundary)) (label : String) :
    Option Boundary :=
  (boundaries.find? (fun p => p.1 = label)).map (fun p => p.2)

/-- Kinematic-pressure step of `processInitialConditions` (source lines
295-297). -/
noncomputable def kinPressureIC (solverName : String)
    (fluidProperties : List MaterialProps) (iv : InitialValues) :
    Except String InitialValues :=
  if solverName = "simpleFoam" ∨ solverName = "porousSimpleFoam" ∨
      solverName = "pimpleFoam" then
    match fluidProperties.head? with
    | none => Except.error "IndexError: list index out of range"
    | some mat =>
      match mat.Density with
      | none => Except.error "KeyError: Density"
      | some rho =>
        Except.ok { iv with KinematicPressure := iv.Pressure / rho }
  else Except.ok iv

/-- Volume-fraction step of `processInitialConditions` (source lines
298-312): same normalization as for boundaries, on the initial values. -/
def alphasIC (solverName : String) (fluidProperties : List MaterialProps)
    (iv : InitialValues) : InitialValues :=
  if solverName = "interFoam" ∨ solverName = "multiphaseInterFoam" then
    let names := fluidProperties.map (fun m => m.Name)
    { iv with VolumeFractions :=
        normalizeVolumeFractions solverName names iv.VolumeFractions }
  else iv

/-- Potential-flow-initialisation guard of `processInitialConditions`
(source lines 314-316). -/
def potentialFlowCheck (solverName : String) (iv : InitialValues) :
    Except String Unit :=
  if iv.PotentialFlowP = true then
    if solverName = "simpleFoam" ∨ solverName = "porousSimpleFoam" ∨
        solverName = "pimpleFoam" ∨ solverName = "hisa" then
      Except.ok ()
    else
      Except.error "Selected solver does not support potential pressure initialisation."
  else Except.ok ()

/-- Velocity-copy step of `processInitialConditions` (source lines
320-331): requires a designated source boundary (explicit check with a
descriptive message) of sub-type `uniformVelocityInlet` or `farField`. -/
def copyVelocityIC (boundaries : List (String × Boundary))
    (iv : InitialValues) : Except String InitialValues :=
  if iv.UseInletUValues = true then
    match iv.BoundaryU with
    | none => Except.error "No boundary selected to copy initial velocity value from."
    | some label =>
      match lookupBoundary boundaries label with
      | none => Except.error ("KeyError: " ++ label)
      | some bc =>
        if bc.BoundarySubType = "uniformVelocityInlet" ∨
            bc.BoundarySubType = "farField" then
          Except.ok { iv with Ux := bc.Ux, Uy := bc.Uy, Uz := bc.Uz }
        else
          Except.error "Boundary type not appropriate to determine initial velocity."
  else Except.ok iv

/-- Pressure-copy step of `processInitialConditions` (source lines
333-346). -/
def copyPressureIC (boundaries : List (String × Boundary))
    (iv : InitialValues) : Except String InitialValues :=
  if iv.UseOutletPValue = true then
    match iv.BoundaryP with
    | none => Except.error "No boundary selected to copy initial pressure value from."
    | some label =>
      match lookupBoundary boundaries label with
      | none => Except.error ("KeyError: " ++ label)
      | some bc =>
        if bc.BoundarySubType = "staticPressureOutlet" ∨
            bc.BoundarySubType = "totalPressureOpening" ∨
            bc.BoundarySubType = "totalPressureInlet" ∨
            bc.BoundarySubType = "staticPressureInlet" ∨
            bc.BoundarySubType = "farField" then
          Except.ok { iv with Pressure := bc.Pressure }
        else
          Except.error "Boundary type not appropriate to determine initial pressure."
  else Except.ok iv

/-- Temperature-copy step of `processInitialConditions` (source lines
348-358).  Unlike the other copy steps there is no `if
initial_values['BoundaryT']:` guard: `initial_values['BoundaryT'].Label`
is evaluated unconditionally, so a missing source boundary surfaces as an
`AttributeError` on `None`, not as a descriptive message. -/
def copyTemperatureIC (boundaries : List (String × Boundary))
    (physics : PhysicsModel) (iv : InitialValues) :
    Except String InitialValues :=
  if physics.Thermal = "Energy" ∧ iv.UseInletTemperatureValue = true then
    match iv.BoundaryT with
    | none => Except.error "AttributeError: 'NoneType' object has no attribute 'Label'"
    | some label =>
      match lookupBoundary boundaries label with
      | none => Except.error ("KeyError: " ++ label)
      | some bc =>
        if bc.BoundaryType = "inlet" then
          if bc.ThermalBoundaryType = "fixedValue" then
            Except.ok { iv with Temperature := bc.Temperature }
          else
            Except.error "Inlet type not appropriate to determine initial temperature"
        else if bc.BoundarySubType = "farField" then
          Except.ok { iv with Temperature := bc.Temperature }
        else
          Except.error "Inlet type not appropriate to determine initial temperature."
  else Except.ok iv

/-- Turbulence-copy step of `processInitialConditions` (source lines
360-388): gated on a selected turbulence model; copies k/omega directly
for `TKEAndSpecDissipationRate`; for `intensityAndLengthScale` requires
sub-type `uniformVelocity` or `farField` and computes
`Uin = (Ux**2 + Uy**2 + Uz**2) ** 0.5`, `k = 3/2*(Uin*I)**2`,
`omega = k**0.5 / (Cmu**0.25 * l)` with `Cmu = 0.09` (the `** 0.5` of the
non-negative operands is `Real.sqrt`; `** 0.25` is `Real.rpow`). -/
noncomputable def copyTurbulenceIC (boundaries : List (String × Boundary))
    (physics : PhysicsModel) (iv : InitialValues) :
    Except String InitialValues :=
  match physics.TurbulenceModel with
  | none => Except.ok iv
  | some _ =>
    if iv.UseInletTurbulenceValues = true then
      match iv.BoundaryTurb with
      | none => Except.error "No boundary selected to copy initial turbulence values from."
      | some label =>
        match lookupBoundary boundaries label with
        | none => Except.error ("KeyError: " ++ label)
        | some bc =>
          if bc.TurbulenceInletSpecification = "TKEAndSpecDissipationRate" then
            Except.ok { iv with k := bc.TurbulentKineticEnergy, omega := bc.SpecificDissipationRate }
          else if bc.TurbulenceInletSpecification = "intensityAndLengthScale" then
            if bc.BoundarySubType = "uniformVelocity" ∨
                bc.BoundarySubType = "farField" then
              let Uin := Real.sqrt (bc.Ux ^ (2 : ℕ) + bc.Uy ^ (2 : ℕ) + bc.Uz ^ (2 : ℕ))
              let I := bc.TurbulenceIntensity
              let k := 3 / 2 * (Uin * I) ^ (2 : ℕ)
              let Cmu : ℝ := 0.09
              let l := bc.TurbulenceLengthScale
              let omega := Real.sqrt k / (Cmu ^ ((0.25 : ℝ)) * l)
              Except.ok { iv with k := k, omega := omega }
            else
              Except.error "Inlet type currently unsupported for copying turbulence initial conditions."
          else
            Except.error "Turbulence inlet specification currently unsupported for copying turbulence initial conditions"
    else Except.ok iv

/-- `CfdCaseWriterFoam.processInitialConditions` (source lines 291-388):
the steps above in source order (boundary conditions have been processed
first; `boundaries` is the processed mapping). -/
noncomputable def processInitialConditions (solverName : String)
    (fluidProperties : List MaterialProps)
    (boundaries : List (String × Boundary)) (physics : PhysicsModel)
    (iv0 : InitialValues) : Except String InitialValues := do
  let iv ← kinPressureIC solverName fluidProperties iv0
  let iv := alphasIC solverName fluidProperties iv
  let _ ← potentialFlowCheck solverName iv
  let iv ← copyVelocityIC boundaries iv
  let iv ← copyPressureIC boundaries iv
  let iv ← copyTemperatureIC boundaries physics iv
  copyTurbulenceIC boundaries physics iv

theorem exceptBind_ok {α β : Type} (a : α) (f : α → Except String β) :
    Bind.bind (Except.ok a) f = f a := rfl

/-- Record update of the derived turbulence quantities
(`initial_values['k'] / initial_values['omega']`). -/
def setKOmega (iv : InitialValues) (kv ov : ℝ) : InitialValues :=
  { iv with k := kv, omega := ov }

/-- Modelled from the claim: `k = 1.5 * (U * I)^2` with
`U = sqrt(Ux^2 + Uy^2 + Uz^2)`. -/
noncomputable def turbK (bc : Boundary) : ℝ :=
  1.5 * (Real.sqrt (bc.Ux ^ (2 : ℕ) + bc.Uy ^ (2 : ℕ) + bc.Uz ^ (2 : ℕ))
    * bc.TurbulenceIntensity) ^ (2 : ℕ)

/-- Modelled from the claim: `omega = sqrt k / (0.09^0.25 * L)`. -/
noncomputable def turbOmega (bc : Boundary) : ℝ :=
  Real.sqrt (turbK bc) / ((0.09 : ℝ) ^ ((0.25 : ℝ)) * bc.TurbulenceLengthScale)

/-- The inlet boundary of the spec's turbulence test point: sub-type
`uniformVelocity`, `U = (10, 0, 0)`, `I = 0.05`, `L = 0.1`. -/
noncomputable def turbBC : Boundary :=
  { BoundarySubType := "uniformVelocity",
    TurbulenceInletSpecification := "intensityAndLengthScale",
    Ux := 10, Uy := 0, Uz := 0,
    TurbulenceIntensity := 0.05, TurbulenceLengthScale := 0.1 }

/-- Initial values requesting the turbulence copy from "Inlet". -/
noncomputable def turbIV : InitialValues :=
  { UseInletTurbulenceValues := true, BoundaryTurb := some "Inlet" }

/-- A physics model with a selected turbulence model. -/
def physTurb : PhysicsModel :=
  { Phase := "Single", Flow := "HighMachCompressible",
    TurbulenceModel := some "kOmegaSST" }

/-- C4: with a turbulence model selected, `UseInletTurbulenceValues` set,
and a designated source boundary whose turbulence specification is
`intensityAndLengthScale`, `processInitialConditions` fails unless the
source boundary's sub-type is `uniformVelocity` or `farField`, and
otherwise sets `k = 1.5*(U*I)^2` with `U = sqrt(Ux^2+Uy^2+Uz^2)` and
`omega = sqrt k / (0.09^0.25 * L)`; at `U = 10`, `I = 0.05`, `L = 0.1`
this gives `k = 0.375` and `omega = sqrt 0.375 / (0.09^0.25 * 0.1)`. -/
theorem processInitialConditions_turbulence_intensity :
    (∀ (solverName : String) (fluidProperties : List MaterialProps)
        (boundaries : List (String × Boundary)) (physics : PhysicsModel)
        (iv : InitialValues) (tm label : String) (bc : Boundary),
        ¬(solverName = "simpleFoam" ∨ solverName = "porousSimpleFoam" ∨
          solverName = "pimpleFoam") →
        ¬(solverName = "interFoam" ∨ solverName = "multiphaseInterFoam") →
        iv.PotentialFlowP = false →
        iv.UseInletUValues = false →
        iv.UseOutletPValue = false →
        iv.UseInletTemperatureValue = false →
        physics.TurbulenceModel = some tm →
        iv.UseInletTurbulenceValues = true →
        iv.BoundaryTurb = some label →
        lookupBoundary boundaries label = some bc →
        bc.TurbulenceInletSpecification = "intensityAndLengthScale" →
        (¬(bc.BoundarySubType = "uniformVelocity" ∨
            bc.BoundarySubType = "farField") →
          processInitialConditions solverName fluidProperties boundaries
              physics iv
            = Except.error "Inlet type currently unsupported for copying turbulence initial conditions.") ∧
        ((bc.BoundarySubType = "uniformVelocity" ∨
            bc.BoundarySubType = "farField") →
          processInitialConditions solverName fluidProperties boundaries
              physics iv
            = Except.ok (setKOmega iv (turbK bc) (turbOmega bc)))) ∧
    ((processInitialConditions "hisa" [] [("Inlet", turbBC)] physTurb
        turbIV).map (fun iv => (iv.k, iv.omega))
      = Except.ok ((0.375 : ℝ),
          Real.sqrt 0.375 / ((0.09 : ℝ) ^ ((0.25 : ℝ)) * (0.1 : ℝ)))) := by
  have hgen : ∀ (solverName : String) (fluidProperties : List MaterialProps)
      (boundaries : List (String × Boundary)) (physics : PhysicsModel)
      (iv : InitialValues) (tm label : String) (bc : Boundary),
      ¬(solverName = "simpleFoam" ∨ solverName = "porousSimpleFoam" ∨
        solverName = "pimpleFoam") →
      ¬(solverName = "interFoam" ∨ solverName = "multiphaseInterFoam") →
      iv.PotentialFlowP = false →
      iv.UseInletUValues = false →
      iv.UseOutletPValue = false →
      iv.UseInletTemperatureValue = false →
      physics.TurbulenceModel = some tm →
      iv.UseInletTurbulenceValues = true →
      iv.BoundaryTurb = some label →
      lookupBoundary boundaries label = some bc →
      bc.TurbulenceInletSpecification = "intensityAndLengthScale" →
      processInitialConditions solverName fluidProperties boundaries physics iv
        = (if bc.BoundarySubType = "uniformVelocity" ∨
              bc.BoundarySubType = "farField" then
            Except.ok (setKOmega iv (turbK bc) (turbOmega bc))
          else
            Except.error "Inlet type currently unsupported for copying turbulence initial conditions.") := by
    intro solverName fluidProperties boundaries physics iv tm label bc
      hs1 hs2 hpf hu hpv ht htm htu hbt hlk hspec
    have h1 : kinPressureIC solverName fluidProperties iv = Except.ok iv := by
      unfold kinPressureIC
      rw [if_neg hs1]
    have h2 : alphasIC solverName fluidProperties iv = iv := by
      unfold alphasIC
      rw [if_neg hs2]
    have h3 : potentialFlowCheck solverName iv = Except.ok () := by
      unfold potentialFlowCheck
      rw [if_neg (by simp [hpf])]
    have h4 : copyVelocityIC boundaries iv = Except.ok iv := by
      unfold copyVelocityIC
      rw [if_neg (by simp [hu])]
    have h5 : copyPressureIC boundaries iv = Except.ok iv := by
      unfold copyPressureIC
      rw [if_neg (by simp [hpv])]
    have h6 : copyTemperatureIC boundaries physics iv = Except.ok iv := by
      unfold copyTemperatureIC
      rw [if_neg (by simp [ht])]
    have h7 : copyTurbulenceIC boundaries physics iv
        = (if bc.BoundarySubType = "uniformVelocity" ∨
              bc.BoundarySubType = "farField" then
            Except.ok (setKOmega iv (turbK bc) (turbOmega bc))
          else
            Except.error "Inlet type currently unsupported for copying turbulence initial conditions.") := by
      unfold copyTurbulenceIC
      simp only [htm, htu, hbt, hlk, hspec, eq_self_iff_true, if_true]
      rw [if_neg (show ¬("intensityAndLengthScale" = "TKEAndSpecDissipationRate") from by decide)]
      by_cases hsub : bc.BoundarySubType = "uniformVelocity" ∨
          bc.BoundarySubType = "farField"
      · rw [if_pos hsub, if_pos hsub]
        simp only [setKOmega, turbK, turbOmega, htu, hbt]
        norm_num
      · rw [if_neg hsub, if_neg hsub]
    unfold processInitialConditions
    simp only [h1, h2, h3, h4, h5, h6, exceptBind_ok]
    exact h7
  refine ⟨fun solverName fluidProperties boundaries physics iv tm label bc
    hs1 hs2 hpf hu hpv ht htm htu hbt hlk hspec => ?_, ?_⟩
  · have h := hgen solverName fluidProperties boundaries physics iv tm label bc
      hs1 hs2 hpf hu hpv ht htm htu hbt hlk hspec
    constructor
    · intro hneg
      rw [h, if_neg hneg]
    · intro hpos
      rw [h, if_pos hpos]
  · have h := hgen "hisa" [] [("Inlet", turbBC)] physTurb turbIV "kOmegaSST"
      "Inlet" turbBC (by decide) (by decide) rfl rfl rfl rfl rfl rfl rfl
      (by rfl) rfl
    rw [h, if_pos (show turbBC.BoundarySubType = "uniformVelocity" ∨
      turbBC.BoundarySubType = "farField" from Or.inl rfl)]
    have hK : turbK turbBC = 0.375 := by
      have h0 : turbK turbBC
          = 1.5 * (Real.sqrt ((10 : ℝ) ^ (2 : ℕ) + (0 : ℝ) ^ (2 : ℕ)
            + (0 : ℝ) ^ (2 : ℕ)) * 0.05) ^ (2 : ℕ) := rfl
      rw [h0, show ((10 : ℝ) ^ (2 : ℕ) + (0 : ℝ) ^ (2 : ℕ)
        + (0 : ℝ) ^ (2 : ℕ)) = 10 ^ 2 by norm_num]
      rw [Real.sqrt_sq (by norm_num : (0 : ℝ) ≤ 10)]
      norm_num
    have hO : turbOmega turbBC
        = Real.sqrt 0.375 / ((0.09 : ℝ) ^ ((0.25 : ℝ)) * (0.1 : ℝ)) := by
      have h0 : turbOmega turbBC
          = Real.sqrt (turbK turbBC) / ((0.09 : ℝ) ^ ((0.25 : ℝ)) * (0.1 : ℝ)) := rfl
      rw [h0, hK]
    show Except.ok ((setKOmega turbIV (turbK turbBC) (turbOmega turbBC)).k,
      (setKOmega turbIV (turbK turbBC) (turbOmega turbBC)).omega) = _
    rw [show (setKOmega turbIV (turbK turbBC) (turbOmega turbBC)).k
      = turbK turbBC from rfl]
    rw [show (setKOmega turbIV (turbK turbBC) (turbOmega turbBC)).omega
      = turbOmega turbBC from rfl]
    rw [hK, hO]

/-- C4 witness: the general turbulence-copy statement applied to the
concrete inlet, showing the success branch of the implication. -/
theorem processInitialConditions_turbulence_intensity_witness :
    (turbBC.BoundarySubType = "uniformVelocity" ∨
      turbBC.BoundarySubType = "farField") ∧
    processInitialConditions "hisa" [] [("Inlet", turbBC)] physTurb turbIV
      = Except.ok (setKOmega turbIV (turbK turbBC) (turbOmega turbBC)) :=
  ⟨Or.inl rfl,
    (processInitialConditions_turbulence_intensity.1 "hisa" [] [("Inlet", turbBC)]
      physTurb turbIV "kOmegaSST" "Inlet" turbBC (by decide) (by decide)
      rfl rfl rfl rfl rfl rfl rfl (by rfl) rfl).2 (Or.inl rfl)⟩

theorem exceptBind_err {α β : Type} (e : String) (f : α → Except String β) :
    Bind.bind (Except.error e : Except String α) f = Except.error e := rfl

/-- A physics model with the energy equation active. -/
def physEnergy : PhysicsModel :=
  { Phase := "Single", Flow := "Compressible", Thermal := "Energy",
    Time := "Steady" }

/-- Initial values requesting the temperature copy with no designated
source boundary. -/
noncomputable def ivNoT : InitialValues :=
  { UseInletTemperatureValue := true, BoundaryT := none }

/-- Initial values requesting the velocity copy with no designated source
boundary. -/
noncomputable def ivNoU : InitialValues :=
  { UseInletUValues := true, BoundaryU := none }

/-- C10: with Thermal=Energy and `UseInletTemperatureValue` set but no
source boundary designated, `processInitialConditions` always raises — the
lookup `initial_values['BoundaryT'].Label` hits `None` and surfaces as an
`AttributeError`, not as a descriptive "no boundary selected" message —
whereas the velocity copy path under the same circumstances raises its
explicit descriptive missing-source error. -/
theorem processInitialConditions_missing_temperature_source :
    (∀ (solverName : String) (fluidProperties : List MaterialProps)
        (boundaries : List (String × Boundary)) (physics : PhysicsModel)
        (iv : InitialValues),
        ¬(solverName = "simpleFoam" ∨ solverName = "porousSimpleFoam" ∨
          solverName = "pimpleFoam") →
        ¬(solverName = "interFoam" ∨ solverName = "multiphaseInterFoam") →
        iv.PotentialFlowP = false →
        iv.UseInletUValues = false →
        iv.UseOutletPValue = false →
        physics.Thermal = "Energy" →
        iv.UseInletTemperatureValue = true →
        iv.BoundaryT = none →
        processInitialConditions solverName fluidProperties boundaries
            physics iv
          = Except.error "AttributeError: 'NoneType' object has no attribute 'Label'") ∧
    (∀ (solverName : String) (fluidProperties : List MaterialProps)
        (boundaries : List (String × Boundary)) (physics : PhysicsModel)
        (iv : InitialValues),
        ¬(solverName = "simpleFoam" ∨ solverName = "porousSimpleFoam" ∨
          solverName = "pimpleFoam") →
        ¬(solverName = "interFoam" ∨ solverName = "multiphaseInterFoam") →
        iv.PotentialFlowP = false →
        iv.UseInletUValues = true →
        iv.BoundaryU = none →
        processInitialConditions solverName fluidProperties boundaries
            physics iv
          = Except.error "No boundary selected to copy initial velocity value from.") := by
  constructor
  · intro solverName fluidProperties boundaries physics iv
      hs1 hs2 hpf hu hpv hth htv hbt
    have h1 : kinPressureIC solverName fluidProperties iv = Except.ok iv := by
      unfold kinPressureIC
      rw [if_neg hs1]
    have h2 : alphasIC solverName fluidProperties iv = iv := by
      unfold alphasIC
      rw [if_neg hs2]
    have h3 : potentialFlowCheck solverName iv = Except.ok () := by
      unfold potentialFlowCheck
      rw [if_neg (by simp [hpf])]
    have h4 : copyVelocityIC boundaries iv = Except.ok iv := by
      unfold copyVelocityIC
      rw [if_neg (by simp [hu])]
    have h5 : copyPressureIC boundaries iv = Except.ok iv := by
      unfold copyPressureIC
      rw [if_neg (by simp [hpv])]
    have h6 : copyTemperatureIC boundaries physics iv
        = Except.error "AttributeError: 'NoneType' object has no attribute 'Label'" := by
      unfold copyTemperatureIC
      rw [if_pos ⟨hth, htv⟩, hbt]
    unfold processInitialConditions
    simp only [h1, h2, h3, h4, h5, h6, exceptBind_ok, exceptBind_err]
  · intro solverName fluidProperties boundaries physics iv hs1 hs2 hpf hu hbu
    have h1 : kinPressureIC solverName fluidProperties iv = Except.ok iv := by
      unfold kinPressureIC
      rw [if_neg hs1]
    have h2 : alphasIC solverName fluidProperties iv = iv := by
      unfold alphasIC
      rw [if_neg hs2]
    have h3 : potentialFlowCheck solverName iv = Except.ok () := by
      unfold potentialFlowCheck
      rw [if_neg (by simp [hpf])]
    have h4 : copyVelocityIC boundaries iv
        = Except.error "No boundary selected to copy initial velocity value from." := by
      unfold copyVelocityIC
      rw [if_pos hu, hbu]
    unfold processInitialConditions
    simp only [h1, h2, h3, h4, exceptBind_ok, exceptBind_err]

/-- C10 witness: the missing-source temperature copy (and, for contrast,
the missing-source velocity copy) at concrete inputs. -/
theorem processInitialConditions_missing_temperature_source_witness :
    processInitialConditions "buoyantSimpleFoam" [] [] physEnergy ivNoT
      = Except.error "AttributeError: 'NoneType' object has no attribute 'Label'" ∧
    processInitialConditions "buoyantSimpleFoam" [] [] physEnergy ivNoU
      = Except.error "No boundary selected to copy initial velocity value from." :=
  ⟨processInitialConditions_missing_temperature_source.1 "buoyantSimpleFoam"
      [] [] physEnergy ivNoT (by decide) (by decide) rfl rfl rfl rfl rfl rfl,
    processInitialConditions_missing_temperature_source.2 "buoyantSimpleFoam"
      [] [] physEnergy ivNoU (by decide) (by decide) rfl rfl rfl⟩

/-- A porous-zone record (`propsToDict(po)` plus the `References` part
list), restricted to the fields the resolver reads. -/
structure PorousZoneIn where
  Label : String := ""
  PartNameList : List String := []
  PorousCorrelation : String := ""
  D1 : ℝ := 0
  D2 : ℝ := 0
  D3 : ℝ := 0
  F1 : ℝ := 0
  F2 : ℝ := 0
  F3 : ℝ := 0
  e1 : ℝ × ℝ × ℝ := (0, 0, 0)
  e3 : ℝ × ℝ × ℝ := (0, 0, 0)
  SpacingDirection : ℝ × ℝ × ℝ := (0, 0, 0)
  TubeAxis : ℝ × ℝ × ℝ := (0, 0, 0)
  TubeSpacing : ℝ := 0
  OuterDiameter : ℝ := 0
  VelocityEstimate : ℝ := 0
  aspect : ℝ := 0

/-- The per-zone result `pd` stored in `settings['porousZones']`. -/
structure PorousZoneResult where
  PartNameList : List String := []
  D : ℝ × ℝ × ℝ := (0, 0, 0)
  F : ℝ × ℝ × ℝ := (0, 0, 0)
  e1 : ℝ × ℝ × ℝ := (0, 0, 0)
  e3 : ℝ × ℝ × ℝ := (0, 0, 0)

/-- Python semantics of subscripting a LIST with a string key: always a
`TypeError`.  Source line 431 reads
`self.settings['fluidProperties']['KinematicViscosity']`, and
`settings['fluidProperties']` is the list built at lines 83/234, so this
lookup takes exactly this path (the working accesses elsewhere use
`settings['fluidProperties'][0][...]`). -/
def pyListGetByStr (_xs : List MaterialProps) (_key : String) :
    Except String ℝ :=
  Except.error "TypeError: list indices must be integers or slices, not str"

/-- Body of the `processPorousZoneProperties` loop (source lines 413-449)
for one zone: Darcy-Forchheimer passes the user coefficients through; the
Jakob correlation reads the geometry, then the kinematic viscosity (the
buggy list-by-string subscript above), then checks viscosity and spacing,
then computes the two transverse Darcy-Forchheimer coefficients
(`** p` on the positive operands is `Real.rpow`); any other correlation
name fails.  `aspect` is the source's `AspectRatio` key. -/
noncomputable def processPorousZone (fluidProperties : List MaterialProps)
    (po : PorousZoneIn) : Except String PorousZoneResult :=
  if po.PorousCorrelation = "DarcyForchheimer" then
    Except.ok (PorousZoneResult.mk po.PartNameList (po.D1, po.D2, po.D3)
      (po.F1, po.F2, po.F3) po.e1 po.e3)
  else if po.PorousCorrelation = "Jakob" then do
    let e1 := po.SpacingDirection
    let e3 := po.TubeAxis
    let spacing := po.TubeSpacing
    let d0 := po.OuterDiameter
    let u0 := po.VelocityEstimate
    let aspectRa := po.aspect
    let kinVisc ← pyListGetByStr fluidProperties "KinematicViscosity"
    if kinVisc = 0 then
      Except.error "Viscosity must be set for Jakob correlation"
    else if spacing < d0 then
      Except.error "Tube spacing may not be less than diameter"
    else
      let coeffs := fun (Sl St : ℝ) =>
        let C := 1.0 / St * 0.5 * (1.0 + 0.47 / (Sl / d0 - 1) ^ ((1.06 : ℝ)))
          * (1.0 / (1 - d0 / Sl)) ^ ((2.0 : ℝ) - 0.16)
        (C / d0 * 0.5 * (u0 * d0 / kinVisc) ^ ((1.0 : ℝ) - 0.16),
          C * (u0 * d0 / kinVisc) ^ (-(0.16 : ℝ)))
      let c0 := coeffs (aspectRa * spacing) spacing
      let c1 := coeffs spacing (aspectRa * spacing)
      Except.ok (PorousZoneResult.mk po.PartNameList (c0.1, c1.1, 0)
        (c0.2, c1.2, 0) e1 e3)
  else Except.error "Unrecognised method for porous baffle resistance"

/-- `CfdCaseWriterFoam.processPorousZoneProperties` (source lines 409-449):
resolve every porous zone, keyed by label. -/
noncomputable def processPorousZoneProperties
    (fluidProperties : List MaterialProps) (zones : List PorousZoneIn) :
    Except String (List (String × PorousZoneResult)) :=
  zones.mapM (fun po =>
    (processPorousZone fluidProperties po).map (fun pd => (po.Label, pd)))

/-- A material whose kinematic viscosity is 0 (the `MissingViscosity`
precondition of the claim is violated). -/
noncomputable def matNu0 : MaterialProps :=
  { Name := "Water", Density := some 1000, DynamicViscosity := some 0,
    KinematicViscosity := some 0 }

/-- A Jakob porous zone whose tube spacing (0.005) is below the outer
diameter (0.01) — the `InvalidGeometry` precondition is also violated. -/
noncomputable def jakobZone : PorousZoneIn :=
  { Label := "PorousZone", PorousCorrelation := "Jakob",
    SpacingDirection := (1, 0, 0), TubeAxis := (0, 0, 1),
    TubeSpacing := 0.005, OuterDiameter := 0.01,
    VelocityEstimate := 1, aspect := 1.73 }

/-- C2 (code bug): on a Jakob zone with first-material viscosity 0 AND
spacing below diameter, the resolver raises the `TypeError` of the
list-by-string subscript — neither the missing-viscosity check nor the
geometry check is ever reached, contradicting the claim that both checks
run (on the first material's viscosity) before any coefficient
arithmetic. -/
theorem processPorousZone_jakob_type_error :
    processPorousZone [matNu0] jakobZone
      = Except.error "TypeError: list indices must be integers or slices, not str" ∧
    ¬(processPorousZone [matNu0] jakobZone
      = Except.error "Viscosity must be set for Jakob correlation") ∧
    ¬(processPorousZone [matNu0] jakobZone
      = Except.error "Tube spacing may not be less than diameter") := by
  have h : processPorousZone [matNu0] jakobZone
      = Except.error "TypeError: list indices must be integers or slices, not str" := by
    rfl
  refine ⟨h, ?_, ?_⟩
  · rw [h]
    simp
  · rw [h]
    simp

/-- An initialisation-zone record: optional `VolumeFractions`
(`'VolumeFractions' in z`). -/
structure InitZone where
  VolumeFractions : Option (String → Option ℝ) := none

/-- Body of the `processInitialisationZoneProperties` loop (source lines
451-470) for one zone: for the free-surface solvers, normalize the zone's
volume fractions when it has any. -/
def processInitialisationZone (solverName : String)
    (fluidProperties : List MaterialProps) (z : InitZone) : InitZone :=
  if solverName = "interFoam" ∨ solverName = "multiphaseInterFoam" then
    match z.VolumeFractions with
    | none => z
    | some vf =>
      { z with VolumeFractions := some (normalizeVolumeFractions solverName
          (fluidProperties.map (fun m => m.Name)) vf) }
  else z

/-- `CfdCaseWriterFoam.processInitialisationZoneProperties` (source lines
451-470), over the labelled zones. -/
def processInitialisationZoneProperties (solverName : String)
    (fluidProperties : List MaterialProps)
    (zones : List (String × InitZone)) : List (String × InitZone) :=
  zones.map (fun p => (p.1, processInitialisationZone solverName fluidProperties p.2))

/-- `l.find(' ') >= 0` on a boundary label: the label contains a space
(`Char.ofNat 32`). -/
def containsSpace (l : String) : Bool :=
  l.toList.any (fun c => c = Char.ofNat 32)

/-- The duplicate scan of `writeCase` (source lines 76-79): the first label
that reoccurs later in the list (the error names `bc_labels[i]` for the
smallest `i` with a later duplicate). -/
def firstDuplicate : List String → Option String
  | [] => none
  | l :: rest => if rest.contains l then some l else firstDuplicate rest

/-- `CfdCaseWriterFoam.porousBafflesPresent` (source lines 478-483). -/
def porousBafflesPresent (boundaries : List (String × Boundary)) : Bool :=
  boundaries.any (fun p =>
    p.2.BoundaryType = "baffle" && p.2.BoundarySubType = "porousBaffle")

/-- The assembled settings document (the subtree of
`self.settings` the modelled processors populate). -/
structure Settings where
  physics : PhysicsModel
  fluidProperties : List MaterialProps
  initialValues : InitialValues
  boundaries : List (String × Boundary)
  porousZones : List (String × PorousZoneResult)
  porousZonesPresent : Bool
  initialisationZones : List (String × InitZone)
  solver : SolverSettings

/-- The inputs of one case-write: the document objects `writeCase` reads
(physics model, labelled materials, labelled boundary objects, initial
conditions, porous and initialisation zones, solver object, geometric
document). -/
structure CaseInputs where
  physics : PhysicsModel
  materials : List (String × MaterialIn)
  boundaries : List (String × Boundary)
  initialValues : InitialValues
  porousZones : List PorousZoneIn
  initialisationZones : List (String × InitZone)
  solver : SolverSettings
  doc : Document

/-- `CfdCaseWriterFoam.writeCase` (source lines 53-128), restricted to the
settings-derivation pipeline (path handling, template rendering and file
emission are external): validate the boundary labels — first the
space scan, then the duplicate scan, both before the settings dictionary
is assembled and before any processor runs — then run the processors in
source order: solver settings, fluid properties, boundary conditions,
initial conditions, porous zones (only when any are present),
initialisation zones. -/
noncomputable def writeCase (inp : CaseInputs) : Except String Settings :=
  let bcLabels := inp.boundaries.map Prod.fst
  match bcLabels.find? containsSpace with
  | some l =>
    Except.error ("Boundary condition label '" ++ l ++ "' is not valid: May not contain spaces")
  | none =>
    match firstDuplicate bcLabels with
    | some l =>
      Except.error ("Boundary condition label '" ++ l ++ "' is duplicated")
    | none => do
      let solver ← processSolverSettings inp.physics inp.materials.length
        (!inp.porousZones.isEmpty) (porousBafflesPresent inp.boundaries)
        inp.solver
      let fluidProperties ← processFluidProperties inp.physics.Turbulence
        inp.materials
      let boundaries ← processBoundaryConditions inp.doc solver.SolverName
        fluidProperties inp.boundaries
      let initialValues ← processInitialConditions solver.SolverName
        fluidProperties boundaries inp.physics inp.initialValues
      let porousZones ←
        if inp.porousZones.isEmpty then Except.ok []
        else processPorousZoneProperties fluidProperties inp.porousZones
      let initialisationZones := processInitialisationZoneProperties
        solver.SolverName fluidProperties inp.initialisationZones
      Except.ok (Settings.mk inp.physics fluidProperties initialValues
        boundaries porousZones (!inp.porousZones.isEmpty)
        initialisationZones solver)

/-- C7: a duplicated boundary label, or a label containing a space, makes
`writeCase` fail with the validation error naming the offending label,
whatever every other input is — in particular before the outcome of any
solver, material, boundary, initial-condition or porous-zone processing
could matter (the space scan runs first, so the duplicate error is
reported when no label contains a space). -/
theorem writeCase_label_validation :
    (∀ (inp : CaseInputs) (l : String),
        (inp.boundaries.map Prod.fst).find? containsSpace = none →
        firstDuplicate (inp.boundaries.map Prod.fst) = some l →
        writeCase inp
          = Except.error ("Boundary condition label '" ++ l ++ "' is duplicated")) ∧
    (∀ (inp : CaseInputs) (l : String),
        (inp.boundaries.map Prod.fst).find? containsSpace = some l →
        writeCase inp
          = Except.error ("Boundary condition label '" ++ l ++ "' is not valid: May not contain spaces")) := by
  constructor
  · intro inp l hsp hdup
    unfold writeCase
    simp only [hsp, hdup]
  · intro inp l hsp
    unfold writeCase
    simp only [hsp]

/-- C7 witness: two boundaries both labelled "Inlet" are rejected as
duplicated. -/
theorem writeCase_label_validation_witness :
    writeCase (CaseInputs.mk physTransient [("Water", MaterialIn.mk none none
        none none none none none)]
      [("Inlet", Boundary.mk "inlet" "" "" "" true false "" [] 0 0 0 0 0 0 0
          0 0 0 0 "" 0 0 0 (fun _ => none)),
        ("Inlet", Boundary.mk "inlet" "" "" "" true false "" [] 0 0 0 0 0 0 0
          0 0 0 0 "" 0 0 0 (fun _ => none))]
      (InitialValues.mk false false false false false none none none none
        0 0 0 0 0 0 0 0 (fun _ => none))
      [] [] (SolverSettings.mk false 1 "") doc0)
      = Except.error "Boundary condition label 'Inlet' is duplicated" := by
  have h := writeCase_label_validation.1 (CaseInputs.mk physTransient
      [("Water", MaterialIn.mk none none none none none none none)]
      [("Inlet", Boundary.mk "inlet" "" "" "" true false "" [] 0 0 0 0 0 0 0
          0 0 0 0 "" 0 0 0 (fun _ => none)),
        ("Inlet", Boundary.mk "inlet" "" "" "" true false "" [] 0 0 0 0 0 0 0
          0 0 0 0 "" 0 0 0 (fun _ => none))]
      (InitialValues.mk false false false false false none none none none
        0 0 0 0 0 0 0 0 (fun _ => none))
      [] [] (SolverSettings.mk false 1 "") doc0) "Inlet" (by rfl) (by rfl)
  exact h
